import Mathlib

/-!
Verification development for the surface-rotation sample and the scene-graph
visualization nodes of the Vulkan best-practice sample framework.

The embedding follows the C++ sources:
* `samples/advanced/surface_rotation/surface_rotation.cpp`
* `framework/utils/graph/nodes/scene.cpp`

Machine integers are modelled as `Nat` (all quantities involved — extents,
transform bitmasks, ids — are non-negative and no arithmetic in the modelled
code can overflow 32/64-bit ranges on the inputs it is given; the sources only
compare, mask and copy them). Floating-point trigonometry at exact quarter-turn
angles is modelled by exact integer cosines/sines. Stateful code is modelled by
explicit state passing, with a list of emitted events recording externally
visible side effects in order.
-/

namespace SurfaceRotationSample

/-! Constants: VkSurfaceTransformFlagBitsKHR

Bit values as declared in `vulkan_core.h`; `VkSurfaceTransformFlagBitsKHR` is a
C enum of single bit flags plus the `MAX_ENUM` sentinel, carried here as a
`Nat` bitmask so that unknown bit patterns remain representable. -/

def VK_SURFACE_TRANSFORM_IDENTITY_BIT_KHR : Nat := 1

def VK_SURFACE_TRANSFORM_ROTATE_90_BIT_KHR : Nat := 2

def VK_SURFACE_TRANSFORM_ROTATE_180_BIT_KHR : Nat := 4

def VK_SURFACE_TRANSFORM_ROTATE_270_BIT_KHR : Nat := 8

def VK_SURFACE_TRANSFORM_HORIZONTAL_MIRROR_BIT_KHR : Nat := 16

def VK_SURFACE_TRANSFORM_HORIZONTAL_MIRROR_ROTATE_90_BIT_KHR : Nat := 32

def VK_SURFACE_TRANSFORM_HORIZONTAL_MIRROR_ROTATE_180_BIT_KHR : Nat := 64

def VK_SURFACE_TRANSFORM_HORIZONTAL_MIRROR_ROTATE_270_BIT_KHR : Nat := 128

def VK_SURFACE_TRANSFORM_INHERIT_BIT_KHR : Nat := 256

def VK_SURFACE_TRANSFORM_FLAG_BITS_MAX_ENUM_KHR : Nat := 0x7FFFFFFF

/-- Model of `VkExtent2D`: a width/height pair. -/
structure VkExtent2D where
  width : Nat
  height : Nat
deriving DecidableEq

/-- The part of `VkSurfaceCapabilitiesKHR` read by the sample: the freshly
queried current extent and current transform of the surface. -/
structure VkSurfaceCapabilitiesKHR where
  currentExtent : VkExtent2D
  currentTransform : Nat
deriving DecidableEq

/-- The observable state of the render context's swapchain: its extent and the
pre-transform it was created with (`Swapchain::get_extent` /
`Swapchain::get_transform`). -/
structure Swapchain where
  extent : VkExtent2D
  transform : Nat
deriving DecidableEq

/-- The part of `vkb::RenderContext` the sample interacts with:
`get_swapchain()`, `get_surface_extent()`, `set_pre_transform(...)`,
`update_swapchain(extent, transform)`. -/
structure RenderContext where
  swapchain : Swapchain
  surface_extent : VkExtent2D
  pre_transform : Nat
deriving DecidableEq

/-! Exact quarter-turn rotation matrices

`glm::rotate(mat, glm::radians(deg), axis)` with `deg ∈ {90, 180, 270}` builds
a Rodrigues rotation matrix from `cos` and `sin` of the angle. The sample uses
only quarter-turn angles, whose trigonometric values are the integers below;
the float rounding of `glm` is abstracted to these exact values. -/

/-- A 3×3 integer matrix (the rotation part of the `glm::mat4` built by
`glm::rotate`; the affine row/column of the `mat4` is constant). -/
structure Mat3 where
  m00 : Int
  m01 : Int
  m02 : Int
  m10 : Int
  m11 : Int
  m12 : Int
  m20 : Int
  m21 : Int
  m22 : Int
deriving DecidableEq

/-- Exact cosine of `d` degrees, for the quarter-turn angles `0, 90, 180, 270`
(the only angles the sample passes to `glm::rotate`). -/
def cosDeg (d : Nat) : Int :=
  if d = 90 ∨ d = 270 then 0 else if d = 180 then -1 else 1

/-- Exact sine of `d` degrees, for the quarter-turn angles `0, 90, 180, 270`. -/
def sinDeg (d : Nat) : Int :=
  if d = 90 then 1 else if d = 270 then -1 else 0

/-- Rodrigues' rotation formula `R = c·I + s·[u]ₓ + (1-c)·u·uᵀ` for a unit axis
`u = (x, y, z)` with integer components, as computed by `glm::rotate` for the
angle `d` degrees. -/
def glmRotate (d : Nat) (x y z : Int) : Mat3 :=
  let c := cosDeg d
  let s := sinDeg d
  { m00 := c + (1 - c) * x * x, m01 := -s * z + (1 - c) * x * y, m02 := s * y + (1 - c) * x * z
    m10 := s * z + (1 - c) * x * y, m11 := c + (1 - c) * y * y, m12 := -s * x + (1 - c) * y * z
    m20 := -s * y + (1 - c) * x * z, m21 := s * x + (1 - c) * y * z, m22 := c + (1 - c) * z * z }

/-- Model of `glm::mat4(1.0f)`: the identity matrix the pre-rotation starts from. -/
def mat3id : Mat3 :=
  { m00 := 1, m01 := 0, m02 := 0, m10 := 0, m11 := 1, m12 := 0, m20 := 0, m21 := 0, m22 := 1 }

/-- The camera state the sample mutates each frame: `set_aspect_ratio` and
`set_pre_rotation`. The aspect ratio is a ratio of two extents, carried
exactly as a rational. -/
structure Camera where
  aspect_ratio : Rat
  pre_rotation : Mat3
deriving DecidableEq

/-- The GUI overlay, as far as the sample's swapchain logic observes it: the
last extent it was resized to (`Gui::resize(width, height)`). `none` models the
`gui` pointer being null. -/
structure Gui where
  width : Nat
  height : Nat
deriving DecidableEq

/-- The state of the `SurfaceRotation` sample: the `pre_rotate` /
`last_pre_rotate` member booleans, the render context, the camera and the
optional GUI. `window_extent` is the window's logical size reported by the
platform; the modelled code never reads it. -/
structure SampleState where
  pre_rotate : Bool
  last_pre_rotate : Bool
  ctx : RenderContext
  camera : Camera
  gui : Option Gui
  window_extent : VkExtent2D
deriving DecidableEq

/-- Externally visible side effects, in program order: the `LOGI` call, the
device-idle wait, the swapchain rebuild with its arguments, and the GUI
resize with its arguments. -/
inductive Event where
  | logRecreate : Event
  | waitIdle : Event
  | updateSwapchain : VkExtent2D → Nat → Event
  | guiResize : Nat → Nat → Event
deriving DecidableEq

/-- Model of `SurfaceRotation::select_pre_transform` (surface_rotation.cpp:165-188):
returns the freshly queried `surface_properties.currentTransform` when
`pre_rotate` is set, and `VK_SURFACE_TRANSFORM_IDENTITY_BIT_KHR` otherwise.
The surface-capabilities query is an external collaborator; its result is the
`props` argument. -/
def select_pre_transform (pre_rotate : Bool) (props : VkSurfaceCapabilitiesKHR) : Nat :=
  if pre_rotate then props.currentTransform else VK_SURFACE_TRANSFORM_IDENTITY_BIT_KHR

/-- Model of `SurfaceRotation::recreate_swapchain` (surface_rotation.cpp:205-219): logs,
waits for the device to be idle, rebuilds the swapchain with the render
context's surface extent and the selected pre-transform, and resizes the GUI
to that extent when a GUI exists. Returns the new state and the emitted
events in order. -/
def recreate_swapchain (s : SampleState) (props : VkSurfaceCapabilitiesKHR) :
    SampleState × List Event :=
  let surface_extent := s.ctx.surface_extent
  let tr := select_pre_transform s.pre_rotate props
  let s' := { s with ctx := { s.ctx with swapchain := { extent := surface_extent, transform := tr } } }
  match s.gui with
  | some _ =>
      ({ s' with gui := some { width := surface_extent.width, height := surface_extent.height } },
       [Event.logRecreate, Event.waitIdle, Event.updateSwapchain surface_extent tr,
        Event.guiResize surface_extent.width surface_extent.height])
  | none =>
      (s', [Event.logRecreate, Event.waitIdle, Event.updateSwapchain surface_extent tr])

/-- Model of `SurfaceRotation::handle_no_resize_rotations` (surface_rotation.cpp:190-203):
recreates the swapchain when the freshly queried extent matches the render
context's surface extent componentwise and `pre_rotate` is set and the freshly
queried transform differs from the swapchain's transform; otherwise does
nothing. -/
def handle_no_resize_rotations (s : SampleState) (props : VkSurfaceCapabilitiesKHR) :
    SampleState × List Event :=
  if props.currentExtent.width = s.ctx.surface_extent.width ∧
      props.currentExtent.height = s.ctx.surface_extent.height ∧
      (s.pre_rotate = true ∧ props.currentTransform ≠ s.ctx.swapchain.transform) then
    recreate_swapchain s props
  else
    (s, [])

/-- The pre-rotation matrix computation of `SurfaceRotation::update`
(surface_rotation.cpp:93-111): starting from `glm::mat4(1.0f)`, tests the
swapchain transform against the `ROTATE_90`, then `ROTATE_270`, then
`ROTATE_180` bits and rotates by the matching angle about the axis
`(0, 0, -1)`. -/
def computePreRotateMat (transform : Nat) : Mat3 :=
  if transform &&& VK_SURFACE_TRANSFORM_ROTATE_90_BIT_KHR ≠ 0 then
    glmRotate 90 0 0 (-1)
  else if transform &&& VK_SURFACE_TRANSFORM_ROTATE_270_BIT_KHR ≠ 0 then
    glmRotate 270 0 0 (-1)
  else if transform &&& VK_SURFACE_TRANSFORM_ROTATE_180_BIT_KHR ≠ 0 then
    glmRotate 180 0 0 (-1)
  else
    mat3id

/-- Model of `SurfaceRotation::update` (surface_rotation.cpp:81-122): handles
rotation-without-resize, recreates on a `pre_rotate` toggle (updating
`last_pre_rotate`), computes the camera pre-rotation matrix from the
swapchain's transform, sets the camera aspect ratio from the swapchain's
extent, and forwards the selected pre-transform to the render context. The
base-class `VulkanSample::update` tail call is the external frame driver. -/
def update (s : SampleState) (props : VkSurfaceCapabilitiesKHR) :
    SampleState × List Event :=
  let r1 := handle_no_resize_rotations s props
  let s1 := r1.1
  let r2 :=
    if s1.pre_rotate ≠ s1.last_pre_rotate then
      let r := recreate_swapchain s1 props
      ({ r.1 with last_pre_rotate := r.1.pre_rotate }, r.2)
    else
      (s1, [])
  let s2 := r2.1
  let pre_rotate_mat := computePreRotateMat s2.ctx.swapchain.transform
  let extent := s2.ctx.swapchain.extent
  let s3 :=
    { s2 with
      camera := { aspect_ratio := (extent.width : Rat) / (extent.height : Rat),
                  pre_rotation := pre_rotate_mat },
      ctx := { s2.ctx with pre_transform := select_pre_transform s2.pre_rotate props } }
  (s3, r1.2 ++ r2.2)

/-- Model of `SurfaceRotation::transform_to_string` (surface_rotation.cpp:221-248): a
switch over the transform flag returning a fixed name per enumerated case and
the fallback string in the `default` arm. -/
def transform_to_string (flag : Nat) : String :=
  if flag = VK_SURFACE_TRANSFORM_IDENTITY_BIT_KHR then "SURFACE_TRANSFORM_IDENTITY"
  else if flag = VK_SURFACE_TRANSFORM_ROTATE_90_BIT_KHR then "SURFACE_TRANSFORM_ROTATE_90"
  else if flag = VK_SURFACE_TRANSFORM_ROTATE_180_BIT_KHR then "SURFACE_TRANSFORM_ROTATE_180"
  else if flag = VK_SURFACE_TRANSFORM_ROTATE_270_BIT_KHR then "SURFACE_TRANSFORM_ROTATE_270"
  else if flag = VK_SURFACE_TRANSFORM_HORIZONTAL_MIRROR_BIT_KHR then "SURFACE_TRANSFORM_HORIZONTAL_MIRROR"
  else if flag = VK_SURFACE_TRANSFORM_HORIZONTAL_MIRROR_ROTATE_90_BIT_KHR then "SURFACE_TRANSFORM_HORIZONTAL_MIRROR_ROTATE_90"
  else if flag = VK_SURFACE_TRANSFORM_HORIZONTAL_MIRROR_ROTATE_180_BIT_KHR then "SURFACE_TRANSFORM_HORIZONTAL_MIRROR_ROTATE_180"
  else if flag = VK_SURFACE_TRANSFORM_HORIZONTAL_MIRROR_ROTATE_270_BIT_KHR then "SURFACE_TRANSFORM_HORIZONTAL_MIRROR_ROTATE_270"
  else if flag = VK_SURFACE_TRANSFORM_INHERIT_BIT_KHR then "SURFACE_TRANSFORM_INHERIT"
  else if flag = VK_SURFACE_TRANSFORM_FLAG_BITS_MAX_ENUM_KHR then "SURFACE_TRANSFORM_FLAG_BITS_MAX_ENUM"
  else "[Unknown transform flag]"

/-- The per-frame invariant of the spec's data model: whenever
`application_handles_rotation` is set the swapchain's transform equals the
surface's current transform, and whenever it is cleared the transform is
`Identity`. -/
def transformInvariant (s : SampleState) (props : VkSurfaceCapabilitiesKHR) : Prop :=
  (s.pre_rotate = true → s.ctx.swapchain.transform = props.currentTransform) ∧
  (s.pre_rotate = false → s.ctx.swapchain.transform = VK_SURFACE_TRANSFORM_IDENTITY_BIT_KHR)

/-- One frame of the frame loop: the GUI toggle may set `pre_rotate` to any
value before `update` runs (the toggle is the sole externally mutated state),
then `update` runs against that frame's surface-properties snapshot. -/
def frameStep (s : SampleState) (f : Bool × VkSurfaceCapabilitiesKHR) : SampleState :=
  (update { s with pre_rotate := f.1 } f.2).1

/-- Running the frame loop over a list of frames (toggle value and
surface-properties snapshot per frame). -/
def runFrames (s : SampleState) (frames : List (Bool × VkSurfaceCapabilitiesKHR)) : SampleState :=
  frames.foldl frameStep s

end SurfaceRotationSample

namespace SceneGraphNodes

/-! Embedding of `framework/utils/graph/nodes/scene.cpp`

The `SceneNode` converters copy scene-graph data into a generic string-keyed
attribute map. `SceneNodeType` is a C++ scoped enum (its declaration lives in
the header `utils/graph/nodes/scene.h`); an enum value is carried here by its
underlying integer code, with the members evident from the translation unit's
own uses listed below in declaration order with the default C++ values
`0, 1, …`. Scene-graph objects (`sg::Scene`, `sg::Node`, …) are external
collaborators; each is modelled by the fields this translation unit reads, with
externally formatted values (`glm::to_string`, `utils::to_string`) carried as
the strings those collaborators produce. -/

abbrev SceneNodeType := Nat

def SceneNodeType.Text : SceneNodeType := 0

def SceneNodeType.Scene : SceneNodeType := 1

def SceneNodeType.Node : SceneNodeType := 2

def SceneNodeType.Transform : SceneNodeType := 3

def SceneNodeType.Mesh : SceneNodeType := 4

def SceneNodeType.SubMesh : SceneNodeType := 5

def SceneNodeType.Texture : SceneNodeType := 6

def SceneNodeType.Material : SceneNodeType := 7

/-- A value stored in a `SceneNode`'s attribute map (the map stores JSON
values: the `id` integer, label/type strings, and nested `data` objects). -/
inductive AttrValue where
  | num : Nat → AttrValue
  | str : String → AttrValue
  | rat : Rat → AttrValue
  | obj : List (String × AttrValue) → AttrValue

/-- Model of `SceneNode::SceneNodeTypeStrings` (scene.cpp:56-64): the map from node
type to its display name. -/
def SceneNodeTypeStrings : List (SceneNodeType × String) :=
  [(SceneNodeType.Text, "Text"),
   (SceneNodeType.Scene, "Scene"),
   (SceneNodeType.Node, "Node"),
   (SceneNodeType.Transform, "Transform"),
   (SceneNodeType.Mesh, "Mesh"),
   (SceneNodeType.SubMesh, "SubMesh"),
   (SceneNodeType.Texture, "Texture"),
   (SceneNodeType.Material, "Material")]

/-- Model of `SceneNode::get_type_str` (scene.cpp:66-74): looks the type up in
`SceneNodeTypeStrings` and returns its name, throwing a `runtime_error` when
the type is not in the map. The thrown exception is modelled by the `error`
case carrying the exception's message. -/
def get_type_str (type : SceneNodeType) : Except String String :=
  match SceneNodeTypeStrings.lookup type with
  | some s => Except.ok s
  | none => Except.error "Type not in SceneNodeTypeStrings map"

/-- The file-local `label` helper (scene.cpp:50-54): the type name alone when
the object's name is empty, otherwise `"<type>: <name>"`. Propagates the
exception of `get_type_str`. -/
def label (type : SceneNodeType) (name : String) : Except String String :=
  (get_type_str type).map fun ts => if name = "" then ts else ts ++ ": " ++ name

/-- A `SceneNode`: the generic attribute map the constructors fill in. The
map is kept in insertion order; every constructor writes each key at most
once. -/
structure SceneNode where
  attributes : List (String × AttrValue)

/-- Model of `sg::Scene` as read by scene.cpp: its name and its children list's size. -/
structure SgScene where
  name : String
  children_count : Nat
deriving DecidableEq

/-- Model of `sg::Node` as read by scene.cpp: its name. -/
structure SgNode where
  name : String
deriving DecidableEq

/-- Model of `sg::Component` as read by scene.cpp: the constructor taking it reads no
field at all; the name is listed for completeness. -/
structure SgComponent where
  name : String
deriving DecidableEq

/-- Model of `sg::Transform` as read by scene.cpp: name, translation, rotation
quaternion, scale (components carried exactly), and the matrix already
formatted by the external `glm::to_string`. -/
structure SgTransform where
  name : String
  translation : Rat × Rat × Rat
  rotation : Rat × Rat × Rat × Rat
  scale : Rat × Rat × Rat
  matrix_string : String
deriving DecidableEq

/-- Model of `sg::Mesh` as read by scene.cpp: its name. -/
structure SgMesh where
  name : String
deriving DecidableEq

/-- Model of `sg::SubMesh` as read by scene.cpp: its name. -/
structure SgSubMesh where
  name : String
deriving DecidableEq

/-- Model of `sg::Texture` as read by scene.cpp: its name. -/
structure SgTexture where
  name : String
deriving DecidableEq

/-- Model of `sg::Material` as read by scene.cpp: name, alpha mode and double-sided
flag as formatted by the external `utils::to_string`, emissive as formatted by
`glm::to_string`, and the alpha cutoff carried exactly. -/
structure SgMaterial where
  name : String
  alpha_mode_string : String
  emissive_string : String
  double_sided_string : String
  alpha_cutoff : Rat
deriving DecidableEq

/-- Model of `SceneNode::SceneNode(size_t id, std::string text)` (scene.cpp:76-80). -/
def SceneNode.ofText (id : Nat) (text : String) : SceneNode :=
  { attributes := [("id", AttrValue.num id), ("label", AttrValue.str text)] }

/-- Model of `SceneNode::SceneNode(size_t id, const sg::Scene &scene)`
(scene.cpp:82-92). -/
def SceneNode.ofScene (id : Nat) (scene : SgScene) : Except String SceneNode := do
  let ts ← get_type_str SceneNodeType.Scene
  let lb ← label SceneNodeType.Scene scene.name
  pure { attributes :=
    [("id", AttrValue.num id),
     ("type", AttrValue.str ts),
     ("label", AttrValue.str lb),
     ("data", AttrValue.obj [("children_count", AttrValue.num scene.children_count)]),
     ("group", AttrValue.str "Scene")] }

/-- Model of `SceneNode::SceneNode(size_t id, const sg::Node &node)`
(scene.cpp:94-100). -/
def SceneNode.ofNode (id : Nat) (node : SgNode) : Except String SceneNode := do
  let ts ← get_type_str SceneNodeType.Node
  let lb ← label SceneNodeType.Node node.name
  pure { attributes :=
    [("id", AttrValue.num id),
     ("type", AttrValue.str ts),
     ("label", AttrValue.str lb),
     ("group", AttrValue.str "Node")] }

/-- Model of `SceneNode::SceneNode(size_t id, const sg::Component &component)`
(scene.cpp:102-106): writes only the `group` and `label` attributes, both to
`"Component"`; the `id` parameter is unused. -/
def SceneNode.ofComponent (_id : Nat) (_component : SgComponent) : SceneNode :=
  { attributes := [("group", AttrValue.str "Component"), ("label", AttrValue.str "Component")] }

/-- Model of `SceneNode::SceneNode(size_t id, const sg::Transform &transform)`
(scene.cpp:108-121). -/
def SceneNode.ofTransform (id : Nat) (t : SgTransform) : Except String SceneNode := do
  let ts ← get_type_str SceneNodeType.Transform
  let lb ← label SceneNodeType.Transform t.name
  pure { attributes :=
    [("id", AttrValue.num id),
     ("type", AttrValue.str ts),
     ("label", AttrValue.str lb),
     ("data", AttrValue.obj
       [("translation", AttrValue.obj
          [("x", AttrValue.rat t.translation.1), ("y", AttrValue.rat t.translation.2.1),
           ("z", AttrValue.rat t.translation.2.2)]),
        ("rotation", AttrValue.obj
          [("x", AttrValue.rat t.rotation.1), ("y", AttrValue.rat t.rotation.2.1),
           ("z", AttrValue.rat t.rotation.2.2.1), ("w", AttrValue.rat t.rotation.2.2.2)]),
        ("scale", AttrValue.obj
          [("x", AttrValue.rat t.scale.1), ("y", AttrValue.rat t.scale.2.1),
           ("z", AttrValue.rat t.scale.2.2)]),
        ("matrix", AttrValue.str t.matrix_string)]),
     ("group", AttrValue.str "Component")] }

/-- Model of `SceneNode::SceneNode(size_t id, const sg::Mesh &mesh)`
(scene.cpp:123-129). -/
def SceneNode.ofMesh (id : Nat) (mesh : SgMesh) : Except String SceneNode := do
  let ts ← get_type_str SceneNodeType.Mesh
  let lb ← label SceneNodeType.Mesh mesh.name
  pure { attributes :=
    [("id", AttrValue.num id),
     ("type", AttrValue.str ts),
     ("label", AttrValue.str lb),
     ("group", AttrValue.str "Component")] }

/-- Model of `SceneNode::SceneNode(size_t id, const sg::SubMesh &submesh)`
(scene.cpp:131-137). -/
def SceneNode.ofSubMesh (id : Nat) (submesh : SgSubMesh) : Except String SceneNode := do
  let ts ← get_type_str SceneNodeType.SubMesh
  let lb ← label SceneNodeType.SubMesh submesh.name
  pure { attributes :=
    [("id", AttrValue.num id),
     ("type", AttrValue.str ts),
     ("label", AttrValue.str lb),
     ("group", AttrValue.str "Component")] }

/-- Model of `SceneNode::SceneNode(size_t id, const sg::Texture &texture, std::string
name)` (scene.cpp:139-145): the `name` parameter is unused by the body. -/
def SceneNode.ofTexture (id : Nat) (texture : SgTexture) (_name : String) :
    Except String SceneNode := do
  let ts ← get_type_str SceneNodeType.Texture
  let lb ← label SceneNodeType.Texture texture.name
  pure { attributes :=
    [("id", AttrValue.num id),
     ("type", AttrValue.str ts),
     ("label", AttrValue.str lb),
     ("group", AttrValue.str "Component")] }

/-- Model of `SceneNode::SceneNode(size_t id, const sg::Material &mat)`
(scene.cpp:147-159). -/
def SceneNode.ofMaterial (id : Nat) (mat : SgMaterial) : Except String SceneNode := do
  let ts ← get_type_str SceneNodeType.Material
  let lb ← label SceneNodeType.Material mat.name
  pure { attributes :=
    [("id", AttrValue.num id),
     ("type", AttrValue.str ts),
     ("label", AttrValue.str lb),
     ("data", AttrValue.obj
       [("AlphaMode", AttrValue.str mat.alpha_mode_string),
        ("emissive", AttrValue.str mat.emissive_string),
        ("double_sided", AttrValue.str mat.double_sided_string),
        ("alpha_cutoff", AttrValue.rat mat.alpha_cutoff)]),
     ("group", AttrValue.str "Component")] }

end SceneGraphNodes

namespace SurfaceRotationSample

/-! Helper lemmas shared by several theorems. -/

/-- Characterization of the state produced by `recreate_swapchain`: the
swapchain is rebuilt with the context's surface extent and the selected
pre-transform, the GUI (when present) is resized to that extent, and every
other field is unchanged. -/
theorem recreate_swapchain_fst (s : SampleState) (props : VkSurfaceCapabilitiesKHR) :
    (recreate_swapchain s props).1 =
      { s with
        ctx := { s.ctx with swapchain :=
          { extent := s.ctx.surface_extent,
            transform := select_pre_transform s.pre_rotate props } },
        gui := s.gui.map fun _ =>
          { width := s.ctx.surface_extent.width, height := s.ctx.surface_extent.height } } := by
  unfold recreate_swapchain
  cases s.gui <;> rfl

/-- Characterization of `handle_no_resize_rotations`: it recreates exactly
under the source's guard and is the identity (with an empty trace) otherwise. -/
theorem handle_no_resize_rotations_eq (s : SampleState) (props : VkSurfaceCapabilitiesKHR) :
    handle_no_resize_rotations s props =
      if props.currentExtent.width = s.ctx.surface_extent.width ∧
          props.currentExtent.height = s.ctx.surface_extent.height ∧
          (s.pre_rotate = true ∧ props.currentTransform ≠ s.ctx.swapchain.transform) then
        recreate_swapchain s props
      else
        (s, []) := rfl

/-- The trace emitted by `recreate_swapchain` is never empty. -/
theorem recreate_swapchain_trace_ne_nil (s : SampleState) (props : VkSurfaceCapabilitiesKHR) :
    (recreate_swapchain s props).2 ≠ [] := by
  unfold recreate_swapchain
  cases s.gui <;> simp

/-- C1: the rotation-only recreation check triggers swapchain recreation iff
the freshly queried surface extent (width and height) equals the render
context's surface extent, the application-handles-rotation flag is set, and
the freshly queried transform differs from the swapchain's transform; in all
other cases (extents differ, or `pre_rotate` is false, or transforms agree)
it performs no recreation. -/
theorem handle_no_resize_rotations_triggers_iff
    (s : SampleState) (props : VkSurfaceCapabilitiesKHR) :
    ((handle_no_resize_rotations s props).2 ≠ [] ↔
      props.currentExtent.width = s.ctx.surface_extent.width ∧
      props.currentExtent.height = s.ctx.surface_extent.height ∧
      s.pre_rotate = true ∧
      props.currentTransform ≠ s.ctx.swapchain.transform) ∧
    ((handle_no_resize_rotations s props).2 ≠ [] →
      handle_no_resize_rotations s props = recreate_swapchain s props) ∧
    ((handle_no_resize_rotations s props).2 = [] →
      (handle_no_resize_rotations s props).1 = s) := by
  rw [handle_no_resize_rotations_eq]
  split
  · rename_i h
    refine ⟨?_, fun _ => rfl, fun hnil => absurd hnil (recreate_swapchain_trace_ne_nil s props)⟩
    exact iff_of_true (recreate_swapchain_trace_ne_nil s props) ⟨h.1, h.2.1, h.2.2.1, h.2.2.2⟩
  · rename_i h
    refine ⟨?_, fun hne => absurd rfl hne, fun _ => rfl⟩
    exact iff_of_false (by simp) h

/-- C2: `select_pre_transform` returns exactly the surface's current transform
when the application-handles-rotation flag is set, and the Identity transform
unconditionally when it is cleared, for every surface-properties snapshot. -/
theorem select_pre_transform_spec (props : VkSurfaceCapabilitiesKHR) :
    select_pre_transform true props = props.currentTransform ∧
    select_pre_transform false props = VK_SURFACE_TRANSFORM_IDENTITY_BIT_KHR :=
  ⟨rfl, rfl⟩

/-- C5: `recreate_swapchain` emits its side effects in strict order — the
device-idle wait, then the swapchain rebuild with the surface extent and the
selected transform, and last the GUI resize to that extent, the latter present
exactly when a GUI exists (the log line precedes them all). -/
theorem recreate_swapchain_effect_order (s : SampleState) (props : VkSurfaceCapabilitiesKHR) :
    (recreate_swapchain s props).2 =
      [Event.logRecreate, Event.waitIdle,
       Event.updateSwapchain s.ctx.surface_extent (select_pre_transform s.pre_rotate props)] ++
      (match s.gui with
       | some _ => [Event.guiResize s.ctx.surface_extent.width s.ctx.surface_extent.height]
       | none => []) := by
  unfold recreate_swapchain
  cases s.gui <;> rfl

/-- C7: recreating the swapchain twice in succession against the same
surface-properties snapshot leaves the whole sample state — in particular the
swapchain's extent and transform — identical after the second call to what it
was after the first. -/
theorem recreate_swapchain_idempotent (s : SampleState) (props : VkSurfaceCapabilitiesKHR) :
    (recreate_swapchain (recreate_swapchain s props).1 props).1.ctx.swapchain.extent =
      (recreate_swapchain s props).1.ctx.swapchain.extent ∧
    (recreate_swapchain (recreate_swapchain s props).1 props).1.ctx.swapchain.transform =
      (recreate_swapchain s props).1.ctx.swapchain.transform ∧
    (recreate_swapchain (recreate_swapchain s props).1 props).1 =
      (recreate_swapchain s props).1 := by
  have h : (recreate_swapchain (recreate_swapchain s props).1 props).1 =
      (recreate_swapchain s props).1 := by
    rw [recreate_swapchain_fst, recreate_swapchain_fst]
    cases s.gui <;> rfl
  exact ⟨by rw [h], by rw [h], h⟩

end SurfaceRotationSample

namespace SurfaceRotationSample

/-- The state `update` reaches after the rotation handler and the toggle
check, before the per-frame camera and pre-transform writes (a proof-side
abbreviation; the source function is `update`). -/
def afterToggle (s : SampleState) (props : VkSurfaceCapabilitiesKHR) : SampleState :=
  let s1 := (handle_no_resize_rotations s props).1
  if s1.pre_rotate ≠ s1.last_pre_rotate then
    { (recreate_swapchain s1 props).1 with
      last_pre_rotate := (recreate_swapchain s1 props).1.pre_rotate }
  else s1

/-- Characterization of the state produced by `update`: the state after the
rotation handler and the toggle check, with the camera rebuilt from the
swapchain's extent and transform and the selected pre-transform forwarded to
the render context. -/
theorem update_fst_eq (s : SampleState) (props : VkSurfaceCapabilitiesKHR) :
    (update s props).1 =
      { (afterToggle s props) with
        camera := { aspect_ratio := (((afterToggle s props).ctx.swapchain.extent.width : Rat) / ((afterToggle s props).ctx.swapchain.extent.height : Rat)),
                    pre_rotation := computePreRotateMat (afterToggle s props).ctx.swapchain.transform },
        ctx := { (afterToggle s props).ctx with
                 pre_transform := select_pre_transform (afterToggle s props).pre_rotate props } } := by
  unfold update afterToggle
  dsimp only
  split <;> rfl

/-- Characterization of the trace emitted by `update`: the rotation handler's
trace followed by the toggle branch's trace. -/
theorem update_trace_eq (s : SampleState) (props : VkSurfaceCapabilitiesKHR) :
    (update s props).2 =
      (handle_no_resize_rotations s props).2 ++
      (if (handle_no_resize_rotations s props).1.pre_rotate ≠
          (handle_no_resize_rotations s props).1.last_pre_rotate then
        (recreate_swapchain (handle_no_resize_rotations s props).1 props).2
      else []) := by
  unfold update
  dsimp only
  split <;> rfl

/-- An empty `update` trace means no recreation ran, so the swapchain is the
one the frame started with. -/
theorem update_swapchain_of_trace_nil (s : SampleState) (props : VkSurfaceCapabilitiesKHR)
    (hnil : (update s props).2 = []) :
    (update s props).1.ctx.swapchain = s.ctx.swapchain := by
  rw [update_trace_eq, List.append_eq_nil] at hnil
  obtain ⟨h1, h2⟩ := hnil
  have hs1 : (handle_no_resize_rotations s props).1 = s := by
    rw [handle_no_resize_rotations_eq] at h1 ⊢
    split
    · rename_i hc
      rw [if_pos hc] at h1
      exact absurd h1 (recreate_swapchain_trace_ne_nil s props)
    · rfl
  rw [hs1] at h2
  rw [update_fst_eq]
  unfold afterToggle
  dsimp only
  rw [hs1]
  by_cases hd : s.pre_rotate ≠ s.last_pre_rotate
  · rw [if_pos hd] at h2
    exact absurd h2 (recreate_swapchain_trace_ne_nil s props)
  · rw [if_neg hd]

end SurfaceRotationSample

namespace SurfaceRotationSample

/-- Changing only the window's reported logical size changes nothing in
`recreate_swapchain` except that field itself. -/
theorem recreate_swapchain_window_indep (s : SampleState)
    (props : VkSurfaceCapabilitiesKHR) (w : VkExtent2D) :
    recreate_swapchain { s with window_extent := w } props =
      ({ (recreate_swapchain s props).1 with window_extent := w },
       (recreate_swapchain s props).2) := by
  unfold recreate_swapchain
  dsimp only
  cases s.gui <;> rfl

/-- Changing only the window's reported logical size changes nothing in
`handle_no_resize_rotations` except that field itself. -/
theorem handle_no_resize_rotations_window_indep (s : SampleState)
    (props : VkSurfaceCapabilitiesKHR) (w : VkExtent2D) :
    handle_no_resize_rotations { s with window_extent := w } props =
      ({ (handle_no_resize_rotations s props).1 with window_extent := w },
       (handle_no_resize_rotations s props).2) := by
  rw [handle_no_resize_rotations_eq, handle_no_resize_rotations_eq]
  dsimp only
  split
  · exact recreate_swapchain_window_indep s props w
  · rfl

/-- Changing only the window's reported logical size changes nothing in the
recreation phase of `update` except that field itself. -/
theorem afterToggle_window_indep (s : SampleState)
    (props : VkSurfaceCapabilitiesKHR) (w : VkExtent2D) :
    afterToggle { s with window_extent := w } props =
      { (afterToggle s props) with window_extent := w } := by
  unfold afterToggle
  dsimp only
  rw [handle_no_resize_rotations_window_indep]
  dsimp only
  rw [recreate_swapchain_window_indep]
  dsimp only
  split <;> rfl

/-- C4: every frame the camera's pre-rotation matrix is computed from the
swapchain's currently active transform — the one the update's own swapchain
state holds after any recreation, not the freshly queried surface transform —
with `Rotate90`, `Rotate180` and `Rotate270` mapped to the quarter-turn
rotations about the view-forward axis `(0, 0, -1)` and every transform with no
rotate bit mapped to the identity matrix; when no recreation ran this frame
(empty trace) the matrix comes from the unchanged pre-frame swapchain
transform whatever the freshly queried transform is. -/
theorem update_pre_rotation_mapping (s : SampleState) (props : VkSurfaceCapabilitiesKHR) :
    ((update s props).1.camera.pre_rotation =
      computePreRotateMat (update s props).1.ctx.swapchain.transform) ∧
    ((update s props).1.ctx.swapchain.transform = VK_SURFACE_TRANSFORM_ROTATE_90_BIT_KHR →
      (update s props).1.camera.pre_rotation = glmRotate 90 0 0 (-1)) ∧
    ((update s props).1.ctx.swapchain.transform = VK_SURFACE_TRANSFORM_ROTATE_180_BIT_KHR →
      (update s props).1.camera.pre_rotation = glmRotate 180 0 0 (-1)) ∧
    ((update s props).1.ctx.swapchain.transform = VK_SURFACE_TRANSFORM_ROTATE_270_BIT_KHR →
      (update s props).1.camera.pre_rotation = glmRotate 270 0 0 (-1)) ∧
    ((update s props).1.ctx.swapchain.transform &&& VK_SURFACE_TRANSFORM_ROTATE_90_BIT_KHR = 0 →
     (update s props).1.ctx.swapchain.transform &&& VK_SURFACE_TRANSFORM_ROTATE_180_BIT_KHR = 0 →
     (update s props).1.ctx.swapchain.transform &&& VK_SURFACE_TRANSFORM_ROTATE_270_BIT_KHR = 0 →
      (update s props).1.camera.pre_rotation = mat3id) ∧
    ((update s props).2 = [] →
      (update s props).1.camera.pre_rotation = computePreRotateMat s.ctx.swapchain.transform) := by
  have hc : (update s props).1.camera.pre_rotation =
      computePreRotateMat (update s props).1.ctx.swapchain.transform := rfl
  refine ⟨hc, ?_, ?_, ?_, ?_, ?_⟩
  · intro h
    rw [hc, h]
    decide
  · intro h
    rw [hc, h]
    decide
  · intro h
    rw [hc, h]
    decide
  · intro h90 h180 h270
    rw [hc]
    unfold computePreRotateMat
    simp [h90, h180, h270]
  · intro hnil
    rw [hc, update_swapchain_of_trace_nil s props hnil]

/-- C6: every frame the camera's aspect ratio is set to the swapchain extent's
width divided by its height — the extent of the swapchain active after this
frame's updates — and the camera never depends on the window's reported
logical size, in every state of the orchestrator. -/
theorem update_aspect_ratio_from_swapchain (s : SampleState)
    (props : VkSurfaceCapabilitiesKHR) (w : VkExtent2D) :
    ((update s props).1.camera.aspect_ratio =
      ((update s props).1.ctx.swapchain.extent.width : Rat) /
        ((update s props).1.ctx.swapchain.extent.height : Rat)) ∧
    (update { s with window_extent := w } props).1.camera = (update s props).1.camera := by
  constructor
  · rfl
  · rw [update_fst_eq, update_fst_eq, afterToggle_window_indep]

end SurfaceRotationSample

namespace SurfaceRotationSample

/-- C8: the per-frame transform handling is total for every transform flag
value: a flag with none of the rotate bits set contributes no rotation (the
identity matrix), and `transform_to_string` returns the fallback string
`"[Unknown transform flag]"` for any flag outside the enumerated cases, so
unknown or unhandled transform bits never abort rendering. -/
theorem transform_handling_total (flag : Nat) :
    (flag &&& VK_SURFACE_TRANSFORM_ROTATE_90_BIT_KHR = 0 →
     flag &&& VK_SURFACE_TRANSFORM_ROTATE_180_BIT_KHR = 0 →
     flag &&& VK_SURFACE_TRANSFORM_ROTATE_270_BIT_KHR = 0 →
     computePreRotateMat flag = mat3id) ∧
    (flag ∉ [VK_SURFACE_TRANSFORM_IDENTITY_BIT_KHR,
             VK_SURFACE_TRANSFORM_ROTATE_90_BIT_KHR,
             VK_SURFACE_TRANSFORM_ROTATE_180_BIT_KHR,
             VK_SURFACE_TRANSFORM_ROTATE_270_BIT_KHR,
             VK_SURFACE_TRANSFORM_HORIZONTAL_MIRROR_BIT_KHR,
             VK_SURFACE_TRANSFORM_HORIZONTAL_MIRROR_ROTATE_90_BIT_KHR,
             VK_SURFACE_TRANSFORM_HORIZONTAL_MIRROR_ROTATE_180_BIT_KHR,
             VK_SURFACE_TRANSFORM_HORIZONTAL_MIRROR_ROTATE_270_BIT_KHR,
             VK_SURFACE_TRANSFORM_INHERIT_BIT_KHR,
             VK_SURFACE_TRANSFORM_FLAG_BITS_MAX_ENUM_KHR] →
     transform_to_string flag = "[Unknown transform flag]") := by
  constructor
  · intro h90 h180 h270
    unfold computePreRotateMat
    simp [h90, h180, h270]
  · intro h
    simp only [List.mem_cons, List.not_mem_nil, or_false, not_or] at h
    obtain ⟨h1, h2, h3, h4, h5, h6, h7, h8, h9, h10⟩ := h
    simp [transform_to_string, h1, h2, h3, h4, h5, h6, h7, h8, h9, h10]

/-- Witness for the totality theorem at the concrete unknown flag value 512
(a bit outside every enumerated transform). -/
theorem transform_handling_total_witness :
    computePreRotateMat 512 = mat3id ∧
    transform_to_string 512 = "[Unknown transform flag]" :=
  ⟨(transform_handling_total 512).1 (by decide) (by decide) (by decide),
   (transform_handling_total 512).2 (by decide)⟩

/-- A concrete 1280×720 extent for the demonstration states. -/
def demoExtent : VkExtent2D := { width := 1280, height := 720 }

/-- A concrete camera for the demonstration states. -/
def demoCamera : Camera := { aspect_ratio := 0, pre_rotation := mat3id }

/-- A pre-rotate-enabled sample state whose swapchain still carries the
Identity transform. -/
def demoStateRotated : SampleState :=
  { pre_rotate := true, last_pre_rotate := true,
    ctx := { swapchain := { extent := demoExtent,
                            transform := VK_SURFACE_TRANSFORM_IDENTITY_BIT_KHR },
             surface_extent := demoExtent,
             pre_transform := VK_SURFACE_TRANSFORM_IDENTITY_BIT_KHR },
    camera := demoCamera,
    gui := some { width := 1280, height := 720 },
    window_extent := demoExtent }

/-- A compositor-handled (pre-rotate off) sample state with an Identity
swapchain transform. -/
def demoStateStale : SampleState :=
  { pre_rotate := false, last_pre_rotate := false,
    ctx := { swapchain := { extent := demoExtent,
                            transform := VK_SURFACE_TRANSFORM_IDENTITY_BIT_KHR },
             surface_extent := demoExtent,
             pre_transform := VK_SURFACE_TRANSFORM_IDENTITY_BIT_KHR },
    camera := demoCamera,
    gui := some { width := 1280, height := 720 },
    window_extent := demoExtent }

/-- Surface properties reporting an unchanged extent and a 90-degree rotated
surface. -/
def demoPropsRot90 : VkSurfaceCapabilitiesKHR :=
  { currentExtent := demoExtent,
    currentTransform := VK_SURFACE_TRANSFORM_ROTATE_90_BIT_KHR }

/-- Witness for the pre-rotation-mapping theorem at concrete inputs: with
pre-rotate enabled and the surface newly rotated by 90 degrees the frame's
camera matrix is the 90-degree rotation about `(0, 0, -1)`, and with
pre-rotate disabled (no recreation, empty trace) the matrix still comes from
the unchanged swapchain transform rather than the freshly queried one. -/
theorem update_pre_rotation_mapping_witness :
    ((update demoStateRotated demoPropsRot90).1.camera.pre_rotation =
      glmRotate 90 0 0 (-1)) ∧
    ((update demoStateStale demoPropsRot90).1.camera.pre_rotation =
      computePreRotateMat demoStateStale.ctx.swapchain.transform) :=
  ⟨(update_pre_rotation_mapping demoStateRotated demoPropsRot90).2.1 (by decide),
   (update_pre_rotation_mapping demoStateStale demoPropsRot90).2.2.2.2.2 (by decide)⟩

end SurfaceRotationSample

namespace SurfaceRotationSample

/-- One preservation step for the transform invariant: entering `update` with
the previous frame's bookkeeping (the swapchain transform is `Identity`
whenever `last_pre_rotate` records a compositor-handled previous frame) and a
freshly queried extent matching the render context's surface extent, the
frame reestablishes the invariant for this frame's surface properties,
re-syncs `last_pre_rotate`, and leaves the surface extent unchanged. -/
theorem update_invariant_step (s : SampleState) (props : VkSurfaceCapabilitiesKHR)
    (hlast : s.last_pre_rotate = false →
      s.ctx.swapchain.transform = VK_SURFACE_TRANSFORM_IDENTITY_BIT_KHR)
    (hw : props.currentExtent.width = s.ctx.surface_extent.width)
    (hh : props.currentExtent.height = s.ctx.surface_extent.height) :
    transformInvariant (update s props).1 props ∧
    (update s props).1.pre_rotate = s.pre_rotate ∧
    (update s props).1.last_pre_rotate = s.pre_rotate ∧
    (update s props).1.ctx.surface_extent = s.ctx.surface_extent := by
  rw [update_fst_eq]
  unfold afterToggle
  dsimp only
  rw [handle_no_resize_rotations_eq]
  by_cases hc : props.currentExtent.width = s.ctx.surface_extent.width ∧
      props.currentExtent.height = s.ctx.surface_extent.height ∧
      (s.pre_rotate = true ∧ props.currentTransform ≠ s.ctx.swapchain.transform)
  · rw [if_pos hc, recreate_swapchain_fst]
    dsimp only
    obtain ⟨-, -, hpr, -⟩ := hc
    by_cases hd : s.pre_rotate ≠ s.last_pre_rotate
    · rw [if_pos hd, recreate_swapchain_fst]
      dsimp only
      unfold transformInvariant select_pre_transform
      dsimp only
      rw [hpr]
      refine ⟨⟨fun _ => rfl, fun hfalse => ?_⟩, rfl, rfl, rfl⟩
      exact absurd hfalse (by simp)
    · rw [if_neg hd]
      unfold transformInvariant select_pre_transform
      dsimp only
      rw [hpr]
      refine ⟨⟨fun _ => rfl, fun hfalse => ?_⟩, rfl, ?_, rfl⟩
      · exact absurd hfalse (by simp)
      · rw [not_ne_iff] at hd
        exact hd.symm.trans hpr
  · rw [if_neg hc]
    by_cases hd : s.pre_rotate ≠ s.last_pre_rotate
    · rw [if_pos hd, recreate_swapchain_fst]
      dsimp only
      unfold transformInvariant select_pre_transform
      dsimp only
      refine ⟨⟨fun htrue => ?_, fun hfalse => ?_⟩, rfl, rfl, rfl⟩
      · rw [htrue]
        rfl
      · rw [hfalse]
        rfl
    · rw [if_neg hd]
      rw [not_ne_iff] at hd
      unfold transformInvariant
      dsimp only
      refine ⟨⟨fun htrue => ?_, fun hfalse => ?_⟩, rfl, hd.symm, rfl⟩
      · by_contra hne
        exact hc ⟨hw, hh, htrue, fun heq => hne heq.symm⟩
      · exact hlast (hd ▸ hfalse)

end SurfaceRotationSample

namespace SurfaceRotationSample

/-- C3: at every reachable steady state of the frame loop — after each
completed `update` along any run whose freshly queried extents match the
render context's surface extent, starting from a state with synced toggle
bookkeeping that satisfies the invariant — the swapchain's transform equals
the surface's current transform whenever the application-handles-rotation
policy is on, and equals Identity whenever it is off; both recreation paths
(rotation-detected and policy-toggle) preserve the invariant. -/
theorem frame_loop_transform_invariant (s0 : SampleState)
    (frames : List (Bool × VkSurfaceCapabilitiesKHR)) (f : Bool × VkSurfaceCapabilitiesKHR)
    (hsync : s0.pre_rotate = s0.last_pre_rotate)
    (hid : s0.pre_rotate = false →
      s0.ctx.swapchain.transform = VK_SURFACE_TRANSFORM_IDENTITY_BIT_KHR)
    (hext : ∀ g ∈ frames ++ [f], g.2.currentExtent = s0.ctx.surface_extent) :
    transformInvariant (runFrames s0 (frames ++ [f])) f.2 := by
  induction frames generalizing s0 with
  | nil =>
      have hf := hext f (by simp)
      exact (update_invariant_step { s0 with pre_rotate := f.1 } f.2
        (fun hl => hid (hsync.trans hl))
        (congrArg VkExtent2D.width hf) (congrArg VkExtent2D.height hf)).1
  | cons g rest ih =>
      have hg := hext g (by simp)
      obtain ⟨hinv1, hpre1, hlast1, hsur1⟩ :=
        update_invariant_step { s0 with pre_rotate := g.1 } g.2
          (fun hl => hid (hsync.trans hl))
          (congrArg VkExtent2D.width hg) (congrArg VkExtent2D.height hg)
      refine ih (frameStep s0 g) (hpre1.trans hlast1.symm) hinv1.2 ?_
      intro h hmem
      have hfs : (frameStep s0 g).ctx.surface_extent = s0.ctx.surface_extent := hsur1
      rw [hfs]
      exact hext h (List.mem_cons_of_mem g hmem)

/-- Witness for the frame-loop invariant theorem on a concrete one-frame run:
pre-rotate enabled with the surface newly rotated by 90 degrees. -/
theorem frame_loop_transform_invariant_witness :
    transformInvariant (runFrames demoStateRotated ([] ++ [(true, demoPropsRot90)]))
      (true, demoPropsRot90).2 :=
  frame_loop_transform_invariant demoStateRotated [] (true, demoPropsRot90)
    (by decide) (by decide)
    (by
      intro g hg
      simp only [List.nil_append, List.mem_singleton] at hg
      subst hg
      rfl)

end SurfaceRotationSample

namespace SceneGraphNodes

/-- C9: the `SceneNode` constructor taking an `sg::Component` writes only the
`group` and `label` attributes (both to `"Component"`), ignores its id
argument and leaves the `id` and `type` attributes unset, while every other
`SceneNode` constructor stores its id argument under the `id` attribute. -/
theorem scene_node_component_ctor (id id2 : Nat) (c : SgComponent) (text : String)
    (sc : SgScene) (nd : SgNode) (tr : SgTransform) (me : SgMesh) (sm : SgSubMesh)
    (tx : SgTexture) (nm : String) (mat : SgMaterial) :
    (SceneNode.ofComponent id c).attributes =
      [("group", AttrValue.str "Component"), ("label", AttrValue.str "Component")] ∧
    SceneNode.ofComponent id c = SceneNode.ofComponent id2 c ∧
    (SceneNode.ofComponent id c).attributes.lookup "id" = none ∧
    (SceneNode.ofComponent id c).attributes.lookup "type" = none ∧
    (SceneNode.ofText id text).attributes.lookup "id" = some (AttrValue.num id) ∧
    Except.map (fun n => n.attributes.lookup "id") (SceneNode.ofScene id sc) =
      Except.ok (some (AttrValue.num id)) ∧
    Except.map (fun n => n.attributes.lookup "id") (SceneNode.ofNode id nd) =
      Except.ok (some (AttrValue.num id)) ∧
    Except.map (fun n => n.attributes.lookup "id") (SceneNode.ofTransform id tr) =
      Except.ok (some (AttrValue.num id)) ∧
    Except.map (fun n => n.attributes.lookup "id") (SceneNode.ofMesh id me) =
      Except.ok (some (AttrValue.num id)) ∧
    Except.map (fun n => n.attributes.lookup "id") (SceneNode.ofSubMesh id sm) =
      Except.ok (some (AttrValue.num id)) ∧
    Except.map (fun n => n.attributes.lookup "id") (SceneNode.ofTexture id tx nm) =
      Except.ok (some (AttrValue.num id)) ∧
    Except.map (fun n => n.attributes.lookup "id") (SceneNode.ofMaterial id mat) =
      Except.ok (some (AttrValue.num id)) :=
  ⟨rfl, rfl, rfl, rfl, rfl, rfl, rfl, rfl, rfl, rfl, rfl, rfl⟩

/-- C10: `get_type_str` succeeds with the fixed name for every type in the
`SceneNodeTypeStrings` map — Text, Scene, Node, Transform, Mesh, SubMesh,
Texture, Material — and throws a `runtime_error` exactly for any type value
not present in the map. -/
theorem get_type_str_total_on_map (t : SceneNodeType) :
    get_type_str SceneNodeType.Text = Except.ok "Text" ∧
    get_type_str SceneNodeType.Scene = Except.ok "Scene" ∧
    get_type_str SceneNodeType.Node = Except.ok "Node" ∧
    get_type_str SceneNodeType.Transform = Except.ok "Transform" ∧
    get_type_str SceneNodeType.Mesh = Except.ok "Mesh" ∧
    get_type_str SceneNodeType.SubMesh = Except.ok "SubMesh" ∧
    get_type_str SceneNodeType.Texture = Except.ok "Texture" ∧
    get_type_str SceneNodeType.Material = Except.ok "Material" ∧
    (t ∉ SceneNodeTypeStrings.map Prod.fst →
      get_type_str t = Except.error "Type not in SceneNodeTypeStrings map") := by
  refine ⟨rfl, rfl, rfl, rfl, rfl, rfl, rfl, rfl, ?_⟩
  intro h
  simp only [SceneNodeTypeStrings, List.map_cons, List.map_nil, List.mem_cons,
    List.not_mem_nil, or_false, not_or] at h
  obtain ⟨h0, h1, h2, h3, h4, h5, h6, h7⟩ := h
  unfold get_type_str SceneNodeTypeStrings
  simp [List.lookup, beq_eq_false_iff_ne.mpr h0, beq_eq_false_iff_ne.mpr h1,
    beq_eq_false_iff_ne.mpr h2, beq_eq_false_iff_ne.mpr h3, beq_eq_false_iff_ne.mpr h4,
    beq_eq_false_iff_ne.mpr h5, beq_eq_false_iff_ne.mpr h6, beq_eq_false_iff_ne.mpr h7]

/-- Witness for the `get_type_str` theorem at the concrete out-of-map type
code 42, together with an in-map success case. -/
theorem get_type_str_total_on_map_witness :
    get_type_str 42 = Except.error "Type not in SceneNodeTypeStrings map" ∧
    get_type_str SceneNodeType.Text = Except.ok "Text" :=
  ⟨(get_type_str_total_on_map 42).2.2.2.2.2.2.2.2 (by decide),
   (get_type_str_total_on_map 42).1⟩

end SceneGraphNodes

namespace SurfaceRotationSample

/-- Witness for the rotation-only recreation check at concrete inputs: with
pre-rotate enabled, an unchanged extent and a newly rotated surface, the
check performs the recreation. -/
theorem handle_no_resize_rotations_triggers_iff_witness :
    handle_no_resize_rotations demoStateRotated demoPropsRot90 =
      recreate_swapchain demoStateRotated demoPropsRot90 :=
  (handle_no_resize_rotations_triggers_iff demoStateRotated demoPropsRot90).2.1 (by decide)

end SurfaceRotationSample
